import Mathlib

/-!
Verification development for the Baltimore 311 explorer analysis engine
(`scripts/analyze.py`).  The Python pipeline is shallowly embedded below:
timestamps are whole days (the scripts compare `pandas` timestamps via
`.days`, and `fetch_311.py` line 195 derives `resolution_days` as an integer
day count), missing values (`NaN`/`NaT`/`None`) are `Option`, `pandas`
data frames are lists of typed records, and float arithmetic is exact
rational (or real, for the transcendental severity formula) arithmetic.
-/

namespace Balt311

/-! ### String helpers

`str.lower()` on the ASCII status/type strings of the data set, and Python's
`in` substring test, modelled on `List Char`. -/

def lowerStr (s : List Char) : List Char := s.map Char.toLower

/-- Python's `needle in haystack` substring test. -/
def substrB (p s : List Char) : Bool :=
  (List.range (s.length + 1)).any (fun i => p.isPrefixOf (List.drop i s))

def closedTokLower : List Char := "closed".data

def closedStatusTok : List Char := "Closed".data

/-! ### Sorting

A stable structural insertion sort standing in for the library sorts the
scripts call (`DataFrame.sort_values`, `list.sort`).  Only the properties
the scripts rely on — the output is a permutation of the input, ordered by
the comparison — are ever used. -/

def insertBy {α : Type} (le : α → α → Bool) (a : α) : List α → List α
  | [] => [a]
  | b :: bs => if le a b then a :: b :: bs else b :: insertBy le a bs

def sortBy {α : Type} (le : α → α → Bool) (l : List α) : List α :=
  l.foldr (insertBy le) []

/-! ### Policy constants (`analyze.py` lines 36-40) -/

def CHRONIC_MIN_REPORTS : Nat := 4

def CHRONIC_MIN_DAYS_SPAN : Int := 90

def FAILED_FIX_WINDOW_DAYS : Int := 120

def HIGH_CHRONIC_THRESHOLD : Nat := 8

/-! ### The record model

One cleaned 311 service request (one row of `311_requests.csv` as loaded by
`load_data`).  Column types follow `fetch_311.py`: `createddate` and
`statusdate` are nullable timestamps (whole days here), `resolution_days` is
the nullable integer `(statusdate - createddate).dt.days`. -/

structure Report where
  srnum : List Char
  srtype : List Char
  srstatus : List Char
  created : Option Int
  statusdate : Option Int
  resolution_days : Option Int
  latitude : ℚ
  longitude : ℚ
  neighborhood : Option (List Char)
  street : Option (List Char)
deriving DecidableEq, Inhabited

/-- `group.sort_values('createddate')`: ascending order with missing
timestamps (`NaT`) placed last, as `pandas` does. -/
def createdLE (a b : Report) : Bool :=
  match a.created, b.created with
  | none, none => true
  | none, some _ => false
  | some _, none => true
  | some x, some y => decide (x ≤ y)

def sortByCreated (g : List Report) : List Report := sortBy createdLE g

/-- `'closed' in status.lower()` (`analyze.py` line 130). -/
def hasClosedTok (status : List Char) : Bool := substrB closedTokLower (lowerStr status)

/-! ### `build_report_history` (`analyze.py` lines 95-133) -/

structure HistoryEntry where
  date : Option Int
  status : List Char
  srtype : List Char
  sr_num : Option (List Char)
  resolution_days : Option Int
  is_rereport : Bool
deriving DecidableEq, Inhabited

/-- The body of the `for` loop of `build_report_history`: emit one history
entry given the tracked `last_closure_date`, then update the tracked date. -/
def histStep (last : Option Int) (r : Report) : HistoryEntry × Option Int :=
  let isRe : Bool :=
    match last, r.created with
    | some lc, some c => decide (0 < c - lc ∧ c - lc ≤ FAILED_FIX_WINDOW_DAYS)
    | _, _ => false
  let entry : HistoryEntry :=
    { date := r.created
      status := r.srstatus
      srtype := r.srtype
      sr_num := if r.srnum.isEmpty then none else some (r.srnum.take 20)
      resolution_days := r.resolution_days
      is_rereport := isRe }
  let last' : Option Int :=
    if hasClosedTok r.srstatus && r.statusdate.isSome then r.statusdate else last
  (entry, last')

def buildHistAux (last : Option Int) : List Report → List HistoryEntry
  | [] => []
  | r :: rs =>
    let p := histStep last r
    p.1 :: buildHistAux p.2 rs

/-- `build_report_history(group)`: walk the cluster in ascending creation
order, threading the most recent closure date (initially `None`). -/
def build_report_history (g : List Report) : List HistoryEntry :=
  buildHistAux none (sortByCreated g)

/-- The closure-tracking update of the walk (`analyze.py` lines 129-131),
identical to the second component of `histStep`. -/
def trackClosure (acc : Option Int) (r : Report) : Option Int :=
  if hasClosedTok r.srstatus && r.statusdate.isSome then r.statusdate else acc

/-- The closure timestamp tracked after walking `l`, starting from `acc`. -/
def lastClosureFrom (acc : Option Int) (l : List Report) : Option Int :=
  l.foldl trackClosure acc

/-! ### `detect_failed_fixes` (`analyze.py` lines 227-255) -/

/-- The `subsequent` filter (lines 247-250): is some report of the group
created strictly after `c` and at most `FAILED_FIX_WINDOW_DAYS` later?
(`NaT` creation dates compare as `False` in `pandas`.) -/
def followedUpWithin (g : List Report) (c : Int) : Bool :=
  g.any (fun r =>
    match r.created with
    | some d => decide (c < d ∧ d ≤ c + FAILED_FIX_WINDOW_DAYS)
    | none => false)

def isClosedExact (r : Report) : Bool := r.srstatus == closedStatusTok

/-- One iteration of the `detect_failed_fixes` loop contributes 1 iff the
row's status is exactly `'Closed'`, its `statusdate` is present, and the
closure is followed by at least one report inside the window. -/
def closedFollowedUp (g : List Report) (r : Report) : Bool :=
  isClosedExact r &&
    (match r.statusdate with
     | some c => followedUpWithin g c
     | none => false)

/-- Count the closures that were re-reported within the window. -/
def detect_failed_fixes (g : List Report) : Nat :=
  let sorted := sortByCreated g
  sorted.countP (closedFollowedUp sorted)

/-! ### `pandas` median over an integer column -/

/-- `Series.median()` over the non-missing integer values: middle element of
the sorted list, or the mean of the two middle elements. -/
def median (l : List Int) : ℚ :=
  let s := sortBy (fun a b => decide (a ≤ b)) l
  let n := s.length
  if n % 2 = 1 then ((s.getD (n / 2) 0 : Int) : ℚ)
  else (((s.getD (n / 2 - 1) 0 + s.getD (n / 2) 0 : Int)) : ℚ) / 2

/-- A nullable float field: Python `None`, float `nan`, or a value.  `nan`
and `None` are distinct: `nan` is truthy in Python, `None` is not. -/
inductive FloatOpt where
  | none
  | nan
  | val (q : ℚ)
deriving DecidableEq, Inhabited

/-! ### Python `round` on exact rationals

Python's `round(x, d)` rounds half to even.  On the idealized exact
rationals used here that is the rounding below; the float halves the
scripts could hit are themselves inexact, so half cases are the natural
idealization boundary. -/

def roundHalfEvenQ (q : ℚ) : ℤ :=
  if Int.fract q < 1 / 2 then ⌊q⌋
  else if 1 / 2 < Int.fract q then ⌊q⌋ + 1
  else if ⌊q⌋ % 2 = 0 then ⌊q⌋ else ⌊q⌋ + 1

def roundToQ (d : Nat) (q : ℚ) : ℚ := (roundHalfEvenQ (q * 10 ^ d) : ℚ) / 10 ^ d

/-! ### `identify_chronic_hotspots` (`analyze.py` lines 136-224)

The embedded `Hotspot` carries every field of the Python dict that some
claim refers to, plus the centroid.  The presentational mode-valued fields
(`primary_type`, `neighborhood`, `address_hint`) and the `status_breakdown`
dict are not referenced by any claim and are left out of the record; the
severity score, a real number, is kept outside the computable record and
modelled by `severity_score` below. -/

structure Hotspot where
  cluster_id : Int
  latitude : ℚ
  longitude : ℚ
  report_count : Nat
  first_report : Int
  last_report : Int
  span_days : Int
  avg_resolution_days : FloatOpt
  possible_failed_fixes : Nat
  is_high_priority : Bool
  history : List HistoryEntry
deriving DecidableEq, Inhabited

/-- The present creation dates of a group (`NaT` entries are skipped by the
`pandas` `min`/`max` aggregations). -/
def createdDates (g : List Report) : List Int :=
  g.filterMap (fun r => r.created)

/-- Day span of a group: `(max - min)` of the present creation dates. -/
def spanOf (g : List Report) : Int :=
  (createdDates g).max?.getD 0 - (createdDates g).min?.getD 0

/-- Lines 176-180 followed by line 212 of `analyze.py`: the median
resolution of the currently-`'Closed'` members (`pandas` `median` skips the
missing values, and is `nan` when every value is missing), pushed through
`float(avg_resolution_days) if avg_resolution_days else None` — under which
both `None` and a `0.0` median are falsy, while `nan` is truthy. -/
def avgResOf (g : List Report) : FloatOpt :=
  let closed := g.filter isClosedExact
  let avg0 : FloatOpt :=
    if closed.isEmpty then .none
    else
      let rs := closed.filterMap (fun r => r.resolution_days)
      if rs.isEmpty then .nan else .val (median rs)
  match avg0 with
  | .val q => if q = 0 then .none else .val q
  | x => x

/-- Line 216: `report_count >= HIGH_CHRONIC_THRESHOLD or possible_failed_fixes >= 2`. -/
def highPriorityFlag (g : List Report) : Bool :=
  decide (HIGH_CHRONIC_THRESHOLD ≤ g.length) || decide (2 ≤ detect_failed_fixes g)

/-- The loop body of `identify_chronic_hotspots` for one cluster.  Returns
`none` when the cluster is skipped by the chronic filter (line 158).  A
cluster with no creation timestamp at all makes the Python `NaT` arithmetic
degenerate (`first_report` is `NaT`, `span_days` is `nan`); no claim touches
that pathology and such a cluster is skipped here. -/
def mkHotspot (cid : Int) (g : List Report) : Option Hotspot :=
  match (createdDates g).min?, (createdDates g).max? with
  | some first, some last =>
    if g.length < CHRONIC_MIN_REPORTS ∨ last - first < CHRONIC_MIN_DAYS_SPAN then none
    else
      some
        { cluster_id := cid
          latitude := (g.map (fun r => r.latitude)).sum / (g.length : ℚ)
          longitude := (g.map (fun r => r.longitude)).sum / (g.length : ℚ)
          report_count := g.length
          first_report := first
          last_report := last
          span_days := last - first
          avg_resolution_days := avgResOf g
          possible_failed_fixes := detect_failed_fixes g
          is_high_priority := highPriorityFlag g
          history := build_report_history g }
  | _, _ => none

/-- First-occurrence deduplication (insertion order of a Python dict /
`groupby` key collection). -/
def firstDedup {α : Type} [DecidableEq α] (l : List α) : List α :=
  l.foldl (fun acc a => if a ∈ acc then acc else acc ++ [a]) []

/-- The keys `groupby('cluster_id')` iterates, in ascending order. -/
def clusterKeys (df : List (Int × Report)) : List Int :=
  sortBy (fun a b => decide (a ≤ b)) (firstDedup (df.map Prod.fst))

/-- The rows of one `groupby` group, in their original order. -/
def membersOf (df : List (Int × Report)) (cid : Int) : List Report :=
  (df.filter (fun p => p.1 == cid)).map Prod.snd

/-- `identify_chronic_hotspots(df)` before the final severity sort: keep the
clustered rows (`cluster_id >= 0`), group them by cluster id, build a
hotspot per qualifying cluster. -/
def identify_chronic_hotspots (df : List (Int × Report)) : List Hotspot :=
  let clustered := df.filter (fun p => decide (0 ≤ p.1))
  (clusterKeys clustered).filterMap (fun cid => mkHotspot cid (membersOf clustered cid))

/-! ### Severity score (`analyze.py` lines 182-185) and the final sort
(line 222).

`round(report_count * (1 + np.log(max(span_days / 30, 1))), 1)`, real
valued.  `hotspots_df.sort_values('severity_score', ascending=False)` sorts
by the stored (rounded) score, descending. -/

noncomputable def roundHalfEvenR (x : ℝ) : ℤ :=
  if Int.fract x < 1 / 2 then ⌊x⌋
  else if 1 / 2 < Int.fract x then ⌊x⌋ + 1
  else if ⌊x⌋ % 2 = 0 then ⌊x⌋ else ⌊x⌋ + 1

noncomputable def round1R (x : ℝ) : ℝ := (roundHalfEvenR (x * 10) : ℝ) / 10

noncomputable def severity_score (report_count : Nat) (span_days : Int) : ℝ :=
  round1R ((report_count : ℝ) * (1 + Real.log (max ((span_days : ℝ) / 30) 1)))

noncomputable def sevGE (a b : Hotspot) : Bool :=
  decide (severity_score b.report_count b.span_days ≤
    severity_score a.report_count a.span_days)

noncomputable def hotspots_sorted (df : List (Int × Report)) : List Hotspot :=
  sortBy sevGE (identify_chronic_hotspots df)

/-! ### The spatial clusterer (claim C4)

`cluster_locations` (`analyze.py` lines 66-92) delegates to
`sklearn.cluster.DBSCAN(eps=eps_rad, min_samples=2, metric='haversine')` on
the radian coordinates, with `eps_rad = (75 / 111000) * (pi / 180)`
(lines 31-33 and 80).

Modelled from the spec: the scikit-learn implementation is not part of this
repository.  With `min_samples = 2` every point that has any neighbour
within `eps` is a core point, so DBSCAN's documented semantics collapse to
the connected components of the "within eps" link graph: components with at
least 2 members are the clusters, every other point is noise (`-1`).  The
value-level relations below express that semantics over the row multiset;
`List.erase` makes a duplicated coordinate its own companion, exactly as two
co-located rows are for DBSCAN. -/

noncomputable def degToRad (d : ℚ) : ℝ := (d : ℝ) * (Real.pi / 180)

/-- The haversine great-circle distance (in radians on the unit sphere)
between two (latitude, longitude) pairs in degrees. -/
noncomputable def haversineRad (p q : ℚ × ℚ) : ℝ :=
  2 * Real.arcsin (Real.sqrt
    (Real.sin ((degToRad q.1 - degToRad p.1) / 2) ^ 2 +
      Real.cos (degToRad p.1) * Real.cos (degToRad q.1) *
        Real.sin ((degToRad q.2 - degToRad p.2) / 2) ^ 2))

/-- `eps_rad`: 75 meters at 111 km per degree, converted to radians. -/
noncomputable def EPS_RAD : ℝ := ((75 : ℝ) / 111000) * (Real.pi / 180)

/-- Two rows are linked when their haversine distance is at most `eps`
(about 75 meters). -/
def nearPt (p q : ℚ × ℚ) : Prop := haversineRad p q ≤ EPS_RAD

/-- A row has a companion when some other row of the frame (another
occurrence of the same coordinates counts) lies within `eps`.  With
`min_samples = 2` this is exactly "core point", and exactly "not noise".
(`List.erase` is pinned to the `DecidableEq`-derived `BEq` instance so that
the library's permutation lemmas about `erase` apply verbatim.) -/
def hasCompanion (l : List (ℚ × ℚ)) (p : ℚ × ℚ) : Prop :=
  ∃ q ∈ @List.erase (ℚ × ℚ) instBEqOfDecidableEq l p, nearPt p q

def linkStep (l : List (ℚ × ℚ)) (a b : ℚ × ℚ) : Prop :=
  a ∈ l ∧ b ∈ l ∧ nearPt a b

/-- `p` and `q` end up in the same DBSCAN cluster: both occur in the frame,
`p` is not noise, and a chain of `eps`-links inside the frame joins them. -/
def sameCluster (l : List (ℚ × ℚ)) (p q : ℚ × ℚ) : Prop :=
  p ∈ l ∧ hasCompanion l p ∧ Relation.ReflTransGen (linkStep l) p q

/-- `p` is labelled with the unclustered sentinel (`-1`). -/
def unclusteredPt (l : List (ℚ × ℚ)) (p : ℚ × ℚ) : Prop :=
  p ∈ l ∧ ¬ hasCompanion l p

/-! ### `neighborhood_summary` (`analyze.py` lines 258-314) -/

/-- A loaded 311 frame: the optional `neighborhood` column may be missing
wholesale (`'neighborhood' in df.columns`), which is distinct from a row
holding a missing value. -/
structure Frame311 where
  hasNeighborhoodCol : Bool
  rows : List Report

def countOcc {α : Type} [BEq α] (l : List α) (a : α) : Nat := l.countP (· == a)

/-- `Series.value_counts()` as a finite mapping: one entry per distinct
value with its multiplicity.  (`pandas` orders the entries by descending
count; the scripts only ever use the mapping by key lookup, key set and
value aggregate, so first-appearance order is kept here.) -/
def valueCounts (l : List (List Char)) : List (List Char × Nat) :=
  (firstDedup l).map (fun a => (a, countOcc l a))

def neighborhoodsOf (f : Frame311) : List (List Char) :=
  f.rows.filterMap (fun r => r.neighborhood)

/-- Python string `<=` (code-point lexicographic), for the ascending
`groupby` key order. -/
def lexLE (a b : List Char) : Bool :=
  match a, b with
  | [], _ => true
  | _ :: _, [] => false
  | x :: xs, y :: ys =>
    if x.val < y.val then true else if y.val < x.val then false else lexLE xs ys

structure NbhdSummary where
  total_reports : Nat
  type_breakdown : List (List Char × Nat)
  resolution_rate : ℚ
  avg_resolution_days : FloatOpt
  recent_90_days : Nat
  prior_90_days : Nat
  trend_pct : Option ℚ
deriving DecidableEq, Inhabited

def nbhdGroup (f : Frame311) (n : List Char) : List Report :=
  f.rows.filter (fun r => r.neighborhood == some n)

/-- One `NbhdSummary`, from the rows of one neighborhood.  `now` stands for
`datetime.now()`. -/
def nbhdSummaryOf (now : Int) (g : List Report) : NbhdSummary :=
  let closed := g.filter isClosedExact
  let closed_times := closed.filterMap (fun r => r.resolution_days)
  let recent := g.countP (fun r =>
    match r.created with
    | some c => decide (now - 90 ≤ c)
    | none => false)
  let prior := g.countP (fun r =>
    match r.created with
    | some c => decide (now - 180 ≤ c ∧ c < now - 90)
    | none => false)
  { total_reports := g.length
    type_breakdown := valueCounts (g.map (fun r => r.srtype))
    resolution_rate := roundToQ 1 ((closed.length : ℚ) / (g.length : ℚ) * 100)
    avg_resolution_days :=
      if closed.isEmpty then .none
      else if closed_times.isEmpty then .nan
      else .val (roundToQ 1 (median closed_times))
    recent_90_days := recent
    prior_90_days := prior
    trend_pct :=
      if 0 < prior then
        some (roundToQ 1 (((recent : ℚ) - (prior : ℚ)) / (prior : ℚ) * 100))
      else if 0 < recent then some 100
      else none }

/-- `neighborhood_summary(df)`: the empty mapping when the optional column
is missing, otherwise one summary per non-empty neighborhood name, keyed in
ascending `groupby` order. -/
def neighborhood_summary (now : Int) (f : Frame311) : List (List Char × NbhdSummary) :=
  if !f.hasNeighborhoodCol then []
  else
    (sortBy lexLE (firstDedup (neighborhoodsOf f))).filterMap (fun n =>
      if n.isEmpty then none else some (n, nbhdSummaryOf now (nbhdGroup f n)))

/-! ### `gap_analysis` (`analyze.py` lines 317-375) -/

/-- One Reddit post row.  `location_hints` holds the parsed JSON array of
hint strings; a missing or malformed payload parses as the empty list
(lines 339-343).  The remaining columns are never read by the engine. -/
structure RedditPost where
  location_hints : List (List Char)
deriving DecidableEq, Inhabited

/-- Line 333: official report count per neighborhood name. -/
def report_counts (df : Option Frame311) : List (List Char × Nat) :=
  match df with
  | some f => if f.hasNeighborhoodCol then valueCounts (neighborhoodsOf f) else []
  | none => []

/-- Line 349: bidirectional case-insensitive substring match between one
location hint and one neighborhood name. -/
def hintMatches (hint nbhd : List Char) : Bool :=
  substrB (lowerStr nbhd) (lowerStr hint) || substrB (lowerStr hint) (lowerStr nbhd)

/-- Lines 338-352: the weak-signal count of one neighborhood is the number
of (post, hint) occurrences matching it — one increment per match, never
deduplicated. -/
def reddit_signal (posts : List RedditPost) (nbhd : List Char) : Nat :=
  (posts.map (fun p => p.location_hints.countP (fun h => hintMatches h nbhd))).sum

structure GapRecord where
  neighborhood : List Char
  reddit_signal : Nat
  official_reports : Nat
  gap_score : ℚ
deriving DecidableEq, Inhabited

/-- `np.mean` of the per-neighborhood official counts (0 when there are
none, line 356). -/
def meanCounts (rc : List (List Char × Nat)) : ℚ :=
  if rc.isEmpty then 0 else ((rc.map (fun p => (p.2 : ℚ))).sum) / (rc.length : ℚ)

/-- Descending order on the stored (rounded) gap score, for
`gaps.sort(key=..., reverse=True)`. -/
def gapGE (a b : GapRecord) : Bool := decide (b.gap_score ≤ a.gap_score)

/-- The loop body of lines 358-372 for one known neighborhood `p` (name and
official count): skipped when it never entered the signals dict (signal 0),
when its signal is below 2, or when its official count is not below half
the mean; otherwise it becomes a gap record with the rounded ratio. -/
def gapRow (avg : ℚ) (posts : List RedditPost) (p : List Char × Nat) :
    Option GapRecord :=
  if reddit_signal posts p.1 = 0 then none
  else if reddit_signal posts p.1 < 2 then none
  else if (p.2 : ℚ) < avg * (1 / 2) then
    some { neighborhood := p.1
           reddit_signal := reddit_signal posts p.1
           official_reports := p.2
           gap_score := roundToQ 2 ((reddit_signal posts p.1 : ℚ) / ((max p.2 1 : Nat) : ℚ)) }
  else none

/-- `gap_analysis(df_311, df_reddit)`.  The Python loop walks the signals
dict (neighborhoods with at least one match, in first-match order); here the
known neighborhoods are walked instead and the zero-signal ones skipped —
the same record set.  Pre-sort order differs only among records the final
descending sort may order either way (equal rounded scores). -/
def gap_analysis (df : Option Frame311) (posts? : Option (List RedditPost)) :
    List GapRecord :=
  match posts? with
  | none => []
  | some posts =>
    if posts.isEmpty then []
    else
      sortBy gapGE ((report_counts df).filterMap
        (gapRow (meanCounts (report_counts df)) posts))

/-! ### `categorize_type` (`analyze.py` lines 389-401) -/

def kwPothole : List Char := "pothole".data

def kwLight : List Char := "light".data

def kwStreetlight : List Char := "streetlight".data

def kwAlley : List Char := "alley".data

def kwSidewalk : List Char := "sidewalk".data

def kwWater : List Char := "water".data

def kwMain : List Char := "main".data

def kwCave : List Char := "cave".data

def kwSinkhole : List Char := "sinkhole".data

def kwStorm : List Char := "storm".data

def kwDrain : List Char := "drain".data

def kwCatch : List Char := "catch".data

def kwCurb : List Char := "curb".data

def kwBridge : List Char := "bridge".data

def kwStreet : List Char := "street".data

def catPothole : List Char := "Pothole".data

def catStreetLight : List Char := "Street Light".data

def catAlley : List Char := "Alley".data

def catSidewalk : List Char := "Sidewalk".data

def catWaterMain : List Char := "Water Main".data

def catCaveIn : List Char := "Cave-In / Sinkhole".data

def catStormDrain : List Char := "Storm Drain".data

def catStreetCurb : List Char := "Street / Curb".data

def catOther : List Char := "Other".data

/-- The keyword if-chain, exactly as written in the source. -/
def categorize_type (srtype : List Char) : List Char :=
  if srtype.isEmpty then catOther
  else
    let t := lowerStr srtype
    if substrB kwPothole t then catPothole
    else if substrB kwLight t || substrB kwStreetlight t then catStreetLight
    else if substrB kwAlley t then catAlley
    else if substrB kwSidewalk t then catSidewalk
    else if substrB kwWater t || substrB kwMain t then catWaterMain
    else if substrB kwCave t || substrB kwSinkhole t then catCaveIn
    else if substrB kwStorm t || substrB kwDrain t || substrB kwCatch t then catStormDrain
    else if substrB kwCurb t || substrB kwBridge t || substrB kwStreet t then catStreetCurb
    else catOther

/-- The ordered keyword-rule table the spec describes in §4.6: a priority
list of (keyword set, category) pairs, first match wins.  Written from the
spec's words, to be compared with the if-chain above. -/
def categoryRules : List (List (List Char) × List Char) :=
  [([kwPothole], catPothole),
   ([kwLight, kwStreetlight], catStreetLight),
   ([kwAlley], catAlley),
   ([kwSidewalk], catSidewalk),
   ([kwWater, kwMain], catWaterMain),
   ([kwCave, kwSinkhole], catCaveIn),
   ([kwStorm, kwDrain, kwCatch], catStormDrain),
   ([kwCurb, kwBridge, kwStreet], catStreetCurb)]

/-- First-matching-rule classification over `categoryRules`. -/
def firstMatchCategory (srtype : List Char) : List Char :=
  if srtype.isEmpty then catOther
  else
    match categoryRules.find? (fun rule =>
      rule.1.any (fun k => substrB k (lowerStr srtype))) with
    | some rule => rule.2
    | none => catOther

/-! ### Concrete inputs used by witnesses and counterexamples -/

/-- A report with the given status and timestamps; every other column is
inert filler. -/
def rpt (status : List Char) (created statusdate : Option Int) : Report :=
  { srnum := []
    srtype := []
    srstatus := status
    created := created
    statusdate := statusdate
    resolution_days := none
    latitude := 0
    longitude := 0
    neighborhood := none
    street := none }

/-- Claim C1's end-to-end scenario: one cluster of 5 reports spanning 100
days; the second report is closed with a status date of day 55, and the two
reports at days 80 and 100 follow that single closure within 60 days. -/
def exC1 : List (Int × Report) :=
  [(0, rpt [] (some 0) none),
   (0, rpt closedStatusTok (some 20) (some 55)),
   (0, rpt [] (some 50) none),
   (0, rpt [] (some 80) none),
   (0, rpt [] (some 100) none)]

/-- A two-report cluster: a closure at day 0 with status date 10, then a
report at day 40. -/
def exC2 : List Report :=
  [rpt closedStatusTok (some 0) (some 10), rpt [] (some 40) none]

/-- Exactly 4 reports spanning exactly 90 days, in one cluster. -/
def exC3 : List (Int × Report) :=
  [(0, rpt [] (some 0) none),
   (0, rpt [] (some 30) none),
   (0, rpt [] (some 60) none),
   (0, rpt [] (some 90) none)]

/-- A qualifying cluster whose three closed members were each resolved in 0
days (closed the day they were filed), plus one open report. -/
def exC6 : List (Int × Report) :=
  [(0, { rpt closedStatusTok (some 0) (some 0) with resolution_days := some 0 }),
   (0, rpt [] (some 10) none),
   (0, { rpt closedStatusTok (some 40) (some 40) with resolution_days := some 0 }),
   (0, { rpt closedStatusTok (some 90) (some 90) with resolution_days := some 0 })]

def nbCanton : List Char := "canton".data

def nbEdmondson : List Char := "edmondson".data

def rptNbhd (n : List Char) : Report := { rpt [] none none with neighborhood := some n }

/-- 13 official reports: 10 in one neighborhood, 3 in the other; the mean is
6.5, so only the 3-report neighborhood is below half the mean. -/
def exC5frame : Frame311 :=
  ⟨true, List.replicate 10 (rptNbhd nbEdmondson) ++ List.replicate 3 (rptNbhd nbCanton)⟩

/-- Two posts, each with one hint naming the quiet neighborhood. -/
def exC5posts : List RedditPost := [⟨[nbCanton]⟩, ⟨[nbCanton]⟩]

/-- Two co-located rows and a far-away pair, for the clustering witness. -/
def exC4 : List (ℚ × ℚ) := [(39, -76), (39, -76), (40, -75)]

def exC4perm : List (ℚ × ℚ) := [(40, -75), (39, -76), (39, -76)]

/-! ## Theorems -/

/-! ### Sorting lemmas -/

theorem insertBy_perm {α : Type} (le : α → α → Bool) (a : α) (l : List α) :
    (insertBy le a l).Perm (a :: l) := by
  induction l with
  | nil => exact List.Perm.refl _
  | cons b bs ih =>
    unfold insertBy
    split
    · exact List.Perm.refl _
    · exact (ih.cons b).trans (List.Perm.swap a b bs)

theorem sortBy_perm {α : Type} (le : α → α → Bool) (l : List α) :
    (sortBy le l).Perm l := by
  induction l with
  | nil => exact List.Perm.refl _
  | cons a l ih => exact (insertBy_perm le a (sortBy le l)).trans (ih.cons a)

theorem mem_sortBy {α : Type} {le : α → α → Bool} {l : List α} {a : α} :
    a ∈ sortBy le l ↔ a ∈ l := (sortBy_perm le l).mem_iff

theorem length_sortBy {α : Type} (le : α → α → Bool) (l : List α) :
    (sortBy le l).length = l.length := (sortBy_perm le l).length_eq

theorem pairwise_insertBy {α : Type} {le : α → α → Bool}
    (total : ∀ a b, le a b = true ∨ le b a = true)
    (trans : ∀ a b c, le a b = true → le b c = true → le a c = true)
    (a : α) {l : List α} (h : l.Pairwise (fun x y => le x y = true)) :
    (insertBy le a l).Pairwise (fun x y => le x y = true) := by
  induction l with
  | nil => simp [insertBy]
  | cons b bs ih =>
    rw [List.pairwise_cons] at h
    obtain ⟨hb, hbs⟩ := h
    unfold insertBy
    split
    · rename_i hab
      refine List.pairwise_cons.mpr ⟨?_, List.pairwise_cons.mpr ⟨hb, hbs⟩⟩
      intro x hx
      rcases List.mem_cons.mp hx with rfl | hx
      · exact hab
      · exact trans a b x hab (hb x hx)
    · rename_i hab
      have hba : le b a = true := by
        rcases total a b with h1 | h1
        · exact absurd h1 hab
        · exact h1
      refine List.pairwise_cons.mpr ⟨?_, ih hbs⟩
      intro x hx
      rcases List.mem_cons.mp ((insertBy_perm le a bs).mem_iff.mp hx) with rfl | h1
      · exact hba
      · exact hb x h1

theorem pairwise_sortBy {α : Type} {le : α → α → Bool}
    (total : ∀ a b, le a b = true ∨ le b a = true)
    (trans : ∀ a b c, le a b = true → le b c = true → le a c = true)
    (l : List α) : (sortBy le l).Pairwise (fun x y => le x y = true) := by
  induction l with
  | nil => simp [sortBy]
  | cons a l ih => exact pairwise_insertBy total trans a ih

/-! ### The re-report walk (claim C2 machinery) -/

theorem histStep_snd (last : Option Int) (r : Report) :
    (histStep last r).2 = trackClosure last r := rfl

theorem buildHistAux_length (last : Option Int) (rs : List Report) :
    (buildHistAux last rs).length = rs.length := by
  induction rs generalizing last with
  | nil => rfl
  | cons r rs ih => simp [buildHistAux, ih]

theorem build_report_history_length (g : List Report) :
    (build_report_history g).length = g.length := by
  rw [build_report_history, buildHistAux_length, sortByCreated, length_sortBy]

/-- The flag emitted at position `k` of the walk, as a function of the walked
prefix: flagged iff the entry has a creation date, some closure was tracked
over the strict prefix, and the day gap lies in `(0, 120]`. -/
theorem buildHistAux_isRe (rs : List Report) : ∀ (last : Option Int) (k : Nat),
    k < rs.length →
    (((buildHistAux last rs).getD k default).is_rereport = true ↔
      ∃ c t, (rs.getD k default).created = some c ∧
        lastClosureFrom last (rs.take k) = some t ∧
        0 < c - t ∧ c - t ≤ FAILED_FIX_WINDOW_DAYS) := by
  induction rs with
  | nil => intro last k hk; simp at hk
  | cons r rs ih =>
    intro last k hk
    match k with
    | 0 =>
      simp only [buildHistAux, List.getD_cons_zero, List.take_zero,
        lastClosureFrom, List.foldl_nil]
      rcases hl : last with _ | lc <;> rcases hc : r.created with _ | c <;>
        simp [histStep, hl, hc]
    | k + 1 =>
      have hk' : k < rs.length := by simpa using hk
      simp only [buildHistAux, List.getD_cons_succ, List.take_succ_cons,
        lastClosureFrom, List.foldl_cons]
      rw [← lastClosureFrom, ← histStep_snd last r]
      exact ih (histStep last r).2 k hk'

/-- **C2.** In the chronological walk of a cluster, the entry at position
`k` carries `is_rereport = true` iff it has a creation timestamp, a closure
(a status containing the token `closed` case-insensitively, with a present
status-change timestamp) was tracked over the strict prefix of the walk, and
the gap to the most recently tracked closure timestamp is strictly positive
and at most 120 days.  Consequently an entry walked before every closure is
never flagged, and an entry with a missing creation timestamp is never
flagged. -/
theorem C2_rereport_characterization (g : List Report) (k : Nat)
    (hk : k < (build_report_history g).length) :
    (((build_report_history g).getD k default).is_rereport = true ↔
      ∃ c t, ((sortByCreated g).getD k default).created = some c ∧
        lastClosureFrom none ((sortByCreated g).take k) = some t ∧
        0 < c - t ∧ c - t ≤ FAILED_FIX_WINDOW_DAYS)
    ∧ (lastClosureFrom none ((sortByCreated g).take k) = none →
        ((build_report_history g).getD k default).is_rereport = false)
    ∧ (((sortByCreated g).getD k default).created = none →
        ((build_report_history g).getD k default).is_rereport = false) := by
  have hk' : k < (sortByCreated g).length := by
    rwa [build_report_history_length, ← length_sortBy createdLE g] at hk
  have main := buildHistAux_isRe (sortByCreated g) none k hk'
  rw [build_report_history] at *
  refine ⟨main, ?_, ?_⟩
  · intro hnone
    rcases hb : ((buildHistAux none (sortByCreated g)).getD k default).is_rereport with _ | _
    · rfl
    · obtain ⟨c, t, _, ht, _, _⟩ := main.mp hb
      rw [hnone] at ht
      exact absurd ht (by simp)
  · intro hnone
    rcases hb : ((buildHistAux none (sortByCreated g)).getD k default).is_rereport with _ | _
    · rfl
    · obtain ⟨c, t, hc, _, _, _⟩ := main.mp hb
      rw [hnone] at hc
      exact absurd hc (by simp)

/-- A closed instance of C2: in `exC2` the entry at position 1 (created day
40, after the closure whose status date is day 10) is flagged. -/
theorem C2_witness :
    ((build_report_history exC2).getD 1 default).is_rereport = true := by
  have h := C2_rereport_characterization exC2 1 (by decide)
  exact h.1.mpr ⟨40, 10, by decide, by decide, by decide, by decide⟩

/-! ### `detect_failed_fixes` as an order-free count -/

theorem any_perm {α : Type} {l₁ l₂ : List α} (h : l₁.Perm l₂) (f : α → Bool) :
    l₁.any f = l₂.any f := by
  cases hb : l₂.any f
  · cases hb' : l₁.any f
    · rfl
    · obtain ⟨x, hx, hfx⟩ := List.any_eq_true.mp hb'
      rw [← hb]
      exact (List.any_eq_true.mpr ⟨x, h.mem_iff.mp hx, hfx⟩).symm
  · obtain ⟨x, hx, hfx⟩ := List.any_eq_true.mp hb
    exact List.any_eq_true.mpr ⟨x, h.mem_iff.mpr hx, hfx⟩

theorem followedUpWithin_perm {g₁ g₂ : List Report} (h : g₁.Perm g₂) (c : Int) :
    followedUpWithin g₁ c = followedUpWithin g₂ c := any_perm h _

theorem sortByCreated_perm (g : List Report) : (sortByCreated g).Perm g :=
  sortBy_perm createdLE g

theorem closedFollowedUp_sorted (g : List Report) (r : Report) :
    closedFollowedUp (sortByCreated g) r = closedFollowedUp g r := by
  unfold closedFollowedUp
  rcases hsd : r.statusdate with _ | c
  · rfl
  · dsimp only
    rw [followedUpWithin_perm (sortByCreated_perm g) c]

/-- Sorting neither changes which rows count nor what each row is checked
against, so the loop count equals a count over the raw group. -/
theorem detect_failed_fixes_eq_countP (g : List Report) :
    detect_failed_fixes g = g.countP (closedFollowedUp g) := by
  unfold detect_failed_fixes
  rw [List.countP_congr (fun r _ => by rw [closedFollowedUp_sorted g r])]
  exact (sortBy_perm createdLE g).countP_eq (closedFollowedUp g)

/-! ### `mkHotspot` characterization -/

theorem mkHotspot_some (cid : Int) (g : List Report) (h : Hotspot)
    (he : mkHotspot cid g = some h) :
    h.cluster_id = cid ∧ h.report_count = g.length ∧ h.span_days = spanOf g ∧
      h.avg_resolution_days = avgResOf g ∧
      h.possible_failed_fixes = detect_failed_fixes g ∧
      h.is_high_priority = highPriorityFlag g ∧
      h.history = build_report_history g ∧
      CHRONIC_MIN_REPORTS ≤ g.length ∧ CHRONIC_MIN_DAYS_SPAN ≤ spanOf g := by
  unfold mkHotspot at he
  split at he
  · rename_i first last hmin hmax
    have hspan : spanOf g = last - first := by
      unfold spanOf
      rw [hmin, hmax]
      rfl
    split at he
    · exact absurd he (by simp)
    · rename_i hcond
      push_neg at hcond
      obtain ⟨h1, h2⟩ := hcond
      have hrec := Option.some_inj.mp he
      subst hrec
      refine ⟨rfl, rfl, hspan.symm, rfl, rfl, rfl, rfl, h1, ?_⟩
      rw [hspan]
      exact h2
  · exact absurd he (by simp)

theorem mkHotspot_isSome (cid : Int) (g : List Report)
    (h1 : createdDates g ≠ []) (h2 : CHRONIC_MIN_REPORTS ≤ g.length)
    (h3 : CHRONIC_MIN_DAYS_SPAN ≤ spanOf g) :
    ∃ h, mkHotspot cid g = some h := by
  obtain ⟨first, hmin⟩ : ∃ a, (createdDates g).min? = some a := by
    cases hm : (createdDates g).min? with
    | none => exact absurd (List.min?_eq_none_iff.mp hm) h1
    | some a => exact ⟨a, rfl⟩
  obtain ⟨last, hmax⟩ : ∃ a, (createdDates g).max? = some a := by
    cases hm : (createdDates g).max? with
    | none => exact absurd (List.max?_eq_none_iff.mp hm) h1
    | some a => exact ⟨a, rfl⟩
  have hspan : spanOf g = last - first := by
    unfold spanOf
    rw [hmin, hmax]
    rfl
  suffices hs : (mkHotspot cid g).isSome by
    exact Option.isSome_iff_exists.mp hs
  unfold mkHotspot
  simp only [hmin, hmax]
  rw [if_neg (by
    push_neg
    rw [hspan] at h3
    exact ⟨h2, h3⟩)]
  rfl

/-! ### Membership plumbing for the hotspot list -/

theorem mem_foldl_dedup {α : Type} [DecidableEq α] (l : List α) :
    ∀ (acc : List α) (a : α),
    (a ∈ l.foldl (fun acc x => if x ∈ acc then acc else acc ++ [x]) acc ↔
      a ∈ acc ∨ a ∈ l) := by
  induction l with
  | nil => intro acc a; simp
  | cons b l ih =>
    intro acc a
    rw [List.foldl_cons, ih]
    by_cases hb : b ∈ acc
    · rw [if_pos hb]
      simp only [List.mem_cons]
      constructor
      · rintro (h | h)
        · exact .inl h
        · exact .inr (.inr h)
      · rintro (h | rfl | h)
        · exact .inl h
        · exact .inl hb
        · exact .inr h
    · rw [if_neg hb]
      simp only [List.mem_append, List.mem_singleton, List.mem_cons]
      tauto

theorem mem_firstDedup {α : Type} [DecidableEq α] {l : List α} {a : α} :
    a ∈ firstDedup l ↔ a ∈ l := by
  unfold firstDedup
  rw [mem_foldl_dedup]
  simp

theorem mem_clusterKeys {df : List (Int × Report)} {cid : Int} :
    cid ∈ clusterKeys df ↔ cid ∈ df.map Prod.fst := by
  unfold clusterKeys
  rw [mem_sortBy, mem_firstDedup]

theorem membersOf_filter_nonneg (df : List (Int × Report)) (cid : Int) (h : 0 ≤ cid) :
    membersOf (df.filter (fun p => decide (0 ≤ p.1))) cid = membersOf df cid := by
  unfold membersOf
  rw [List.filter_filter]
  congr 1
  apply List.filter_congr
  intro p _
  by_cases hp : p.1 = cid
  · simp [hp, h]
  · simp [hp]

theorem mem_hotspots_iff {df : List (Int × Report)} {h : Hotspot} :
    h ∈ identify_chronic_hotspots df ↔
      ∃ cid, cid ∈ clusterKeys (df.filter (fun p => decide (0 ≤ p.1))) ∧
        mkHotspot cid (membersOf (df.filter (fun p => decide (0 ≤ p.1))) cid) = some h := by
  unfold identify_chronic_hotspots
  rw [List.mem_filterMap]

/-- **C1 (counterexample).**  On the end-to-end scenario cluster `exC1`
(5 reports over 100 days, two of them within 60 days of its single closure)
the claim — `possible_failed_fixes` equals the number of `is_rereport`
entries, and the scenario hotspot is high priority — fails: the code counts
closures with at least one follow-up (here 1), not flagged entries (here 2),
and `is_high_priority` is false (5 < 8 and 1 < 2). -/
theorem C1_counterexample :
    ¬ (∀ h ∈ identify_chronic_hotspots exC1,
        h.possible_failed_fixes = h.history.countP (fun e => e.is_rereport) ∧
          h.is_high_priority = true) := by decide

/-- **C1 (amended).**  For every produced hotspot, `possible_failed_fixes`
equals the number of cluster members whose status is exactly `'Closed'` with
a present status timestamp and whose closure is followed by at least one
member report created within the 120-day window; on the 5-report scenario
cluster this count is 1 (a single closure with follow-ups) while 2 history
entries are flagged, and the hotspot is not high priority. -/
theorem C1_failed_fix_count :
    (∀ (df : List (Int × Report)) (k : Nat),
      k < (identify_chronic_hotspots df).length →
      ((identify_chronic_hotspots df).getD k default).possible_failed_fixes =
        (membersOf df (((identify_chronic_hotspots df).getD k default).cluster_id)).countP
          (closedFollowedUp
            (membersOf df (((identify_chronic_hotspots df).getD k default).cluster_id)))) ∧
    (identify_chronic_hotspots exC1).map
        (fun h => (h.possible_failed_fixes, h.history.countP (fun e => e.is_rereport),
          h.is_high_priority)) = [(1, 2, false)] := by
  constructor
  · intro df k hk
    have hmem : (identify_chronic_hotspots df).getD k default ∈
        identify_chronic_hotspots df := by
      rw [List.getD_eq_getElem _ default hk]
      exact List.getElem_mem hk
    obtain ⟨cid, hcid, hmk⟩ := mem_hotspots_iff.mp hmem
    have hcid0 : 0 ≤ cid := by
      obtain ⟨p, hp, rfl⟩ := List.mem_map.mp (mem_clusterKeys.mp hcid)
      simpa using (List.mem_filter.mp hp).2
    obtain ⟨hcl, _, _, _, hpff, _, _, _, _⟩ := mkHotspot_some _ _ _ hmk
    rw [hcl, ← membersOf_filter_nonneg df cid hcid0]
    exact hpff.trans (detect_failed_fixes_eq_countP _)
  · decide

/-- A closed instance of the amended C1 at the scenario input. -/
theorem C1_witness :
    ((identify_chronic_hotspots exC1).getD 0 default).possible_failed_fixes =
      (membersOf exC1 (((identify_chronic_hotspots exC1).getD 0 default).cluster_id)).countP
        (closedFollowedUp
          (membersOf exC1 (((identify_chronic_hotspots exC1).getD 0 default).cluster_id))) :=
  C1_failed_fix_count.1 exC1 0 (by decide)

/-- **C3.**  A cluster (a nonnegative id occurring in the frame, with at
least one creation timestamp) yields a hotspot iff it has at least 4 reports
and its creation-date span is at least 90 days — both bounds inclusive. -/
theorem C3_chronic_threshold (df : List (Int × Report)) (cid : Int)
    (h0 : 0 ≤ cid) (h1 : cid ∈ df.map Prod.fst)
    (h2 : createdDates (membersOf df cid) ≠ []) :
    ((∃ h ∈ identify_chronic_hotspots df, h.cluster_id = cid) ↔
      (CHRONIC_MIN_REPORTS ≤ (membersOf df cid).length ∧
        CHRONIC_MIN_DAYS_SPAN ≤ spanOf (membersOf df cid))) := by
  have hmemkeys : cid ∈ clusterKeys (df.filter (fun p => decide (0 ≤ p.1))) := by
    rw [mem_clusterKeys]
    obtain ⟨p, hp, rfl⟩ := List.mem_map.mp h1
    exact List.mem_map.mpr ⟨p, List.mem_filter.mpr ⟨hp, by simpa using h0⟩, rfl⟩
  have hmembers := membersOf_filter_nonneg df cid h0
  constructor
  · rintro ⟨h, hmem, hcl⟩
    obtain ⟨cid', hcid', hmk⟩ := mem_hotspots_iff.mp hmem
    obtain ⟨hcl', _, _, _, _, _, _, hc1, hc2⟩ := mkHotspot_some _ _ _ hmk
    have heq : cid' = cid := by rw [← hcl', hcl]
    subst heq
    rw [hmembers] at hc1 hc2
    exact ⟨hc1, hc2⟩
  · rintro ⟨hc1, hc2⟩
    obtain ⟨h, hmk⟩ := mkHotspot_isSome cid
      (membersOf (df.filter (fun p => decide (0 ≤ p.1))) cid)
      (by rwa [hmembers]) (by rwa [hmembers]) (by rwa [hmembers])
    exact ⟨h, mem_hotspots_iff.mpr ⟨cid, hmemkeys, hmk⟩, (mkHotspot_some _ _ _ hmk).1⟩

/-- A closed instance of C3: exactly 4 reports spanning exactly 90 days do
qualify. -/
theorem C3_witness : ∃ h ∈ identify_chronic_hotspots exC3, h.cluster_id = 0 :=
  (C3_chronic_threshold exC3 0 (by decide) (by decide) (by decide)).mpr
    ⟨by decide, by decide⟩

/-- **C6 (the code at the failing input).**  The cluster `exC6` qualifies
and has three `'Closed'` members with defined resolution durations, all 0
days, whose median is 0 — yet the produced hotspot's
`avg_resolution_days` is null, because line 212's
`float(avg_resolution_days) if avg_resolution_days else None` treats the
0.0 median as falsy. -/
theorem C6_zero_median_becomes_null :
    (identify_chronic_hotspots exC6).map (fun h => h.avg_resolution_days) =
        [FloatOpt.none] ∧
      ((membersOf exC6 0).filter isClosedExact).filterMap
          (fun r => r.resolution_days) = [0, 0, 0] ∧
      median (((membersOf exC6 0).filter isClosedExact).filterMap
          (fun r => r.resolution_days)) = 0 :=
  ⟨by decide, by decide, by decide⟩

/-- **C9.**  A missing or empty weak-signal dataset yields an empty gap
list without error, and a frame without the neighborhood column yields an
empty neighborhood mapping. -/
theorem C9_graceful_degradation :
    (∀ df, gap_analysis df none = []) ∧
      (∀ df, gap_analysis df (some []) = []) ∧
      (∀ (now : Int) (f : Frame311), f.hasNeighborhoodCol = false →
        neighborhood_summary now f = []) := by
  refine ⟨fun df => rfl, fun df => rfl, fun now f hf => ?_⟩
  unfold neighborhood_summary
  rw [hf]
  rfl

/-- A closed instance of C9's column-missing case. -/
theorem C9_witness : neighborhood_summary 0 ⟨false, []⟩ = [] :=
  C9_graceful_degradation.2.2 0 ⟨false, []⟩ rfl

/-- **C10.**  The weak-signal count of a neighborhood is the number of
(post, hint) matching occurrences, with no per-post deduplication: a post
adds one per matching hint, a single-hint post adds exactly its hint's
match indicator for every neighborhood, and the total is a flat count over
all hints of all posts. -/
theorem C10_signal_counting :
    (∀ (p : RedditPost) (posts : List RedditPost) (n : List Char),
      reddit_signal (p :: posts) n =
        p.location_hints.countP (fun h => hintMatches h n) + reddit_signal posts n) ∧
      (∀ (h : List Char) (posts : List RedditPost) (n : List Char),
        reddit_signal (⟨[h]⟩ :: posts) n =
          (if hintMatches h n then 1 else 0) + reddit_signal posts n) ∧
      (∀ (posts : List RedditPost) (n : List Char),
        reddit_signal posts n =
          ((posts.map (fun p => p.location_hints)).flatten).countP
            (fun h => hintMatches h n)) := by
  refine ⟨fun p posts n => rfl, ?_, ?_⟩
  · intro h posts n
    show [h].countP (fun x => hintMatches x n) + reddit_signal posts n = _
    rw [List.countP_cons, List.countP_nil]
    rcases hm : hintMatches h n <;> simp [hm]
  · intro posts n
    induction posts with
    | nil => rfl
    | cons p ps ih =>
      show p.location_hints.countP (fun h => hintMatches h n) + reddit_signal ps n = _
      rw [List.map_cons, List.flatten_cons, List.countP_append, ih]

/-- **C8.**  The keyword if-chain of `categorize_type` classifies every raw
request-type string exactly as the first matching rule of the ordered
priority table (pothole, street-light, alley, sidewalk, water-main,
cave-in/sinkhole, storm-drain, street/curb, otherwise Other): each string
gets the category of the first keyword group, in that fixed order, with a
case-insensitive substring match. -/
theorem C8_first_match_priority (s : List Char) :
    categorize_type s = firstMatchCategory s := by
  unfold categorize_type firstMatchCategory categoryRules
  by_cases h0 : s.isEmpty
  · simp [h0]
  · rw [Bool.not_eq_true] at h0
    simp only [h0, Bool.false_eq_true, if_false, List.find?, List.any_cons,
      List.any_nil, Bool.or_false, Bool.or_assoc]
    cases h1 : substrB kwPothole (lowerStr s)
    · cases h2 : substrB kwLight (lowerStr s) || substrB kwStreetlight (lowerStr s)
      · cases h3 : substrB kwAlley (lowerStr s)
        · cases h4 : substrB kwSidewalk (lowerStr s)
          · cases h5 : substrB kwWater (lowerStr s) || substrB kwMain (lowerStr s)
            · cases h6 : substrB kwCave (lowerStr s) || substrB kwSinkhole (lowerStr s)
              · cases h7 : substrB kwStorm (lowerStr s) ||
                    (substrB kwDrain (lowerStr s) || substrB kwCatch (lowerStr s))
                · cases h8 : substrB kwCurb (lowerStr s) ||
                      (substrB kwBridge (lowerStr s) || substrB kwStreet (lowerStr s))
                  · simp [h1, h2, h3, h4, h5, h6, h7, h8]
                  · simp [h1, h2, h3, h4, h5, h6, h7, h8]
                · simp [h1, h2, h3, h4, h5, h6, h7]
              · simp [h1, h2, h3, h4, h5, h6]
            · simp [h1, h2, h3, h4, h5]
          · simp [h1, h2, h3, h4]
        · simp [h1, h2, h3]
      · simp [h1, h2]
    · simp [h1]

/-! ### Severity (claim C7) -/

theorem sevGE_total : ∀ a b : Hotspot, sevGE a b = true ∨ sevGE b a = true := by
  intro a b
  unfold sevGE
  rcases le_total (severity_score a.report_count a.span_days)
      (severity_score b.report_count b.span_days) with h | h
  · right
    exact decide_eq_true h
  · left
    exact decide_eq_true h

theorem sevGE_trans : ∀ a b c : Hotspot, sevGE a b = true → sevGE b c = true →
    sevGE a c = true := by
  intro a b c hab hbc
  unfold sevGE at *
  exact decide_eq_true (le_trans (of_decide_eq_true hbc) (of_decide_eq_true hab))

/-- **C7.**  The severity score is
`round(report_count * (1 + ln(max(span_days / 30, 1))), 1)`; the produced
hotspot list is ordered by descending severity score, and a cluster of 5
reports spanning exactly 30 days scores exactly 5.0. -/
theorem C7_severity_order :
    (∀ df, (hotspots_sorted df).Pairwise (fun a b =>
        severity_score b.report_count b.span_days ≤
          severity_score a.report_count a.span_days)) ∧
      severity_score 5 30 = 5 := by
  constructor
  · intro df
    have hp := pairwise_sortBy sevGE_total sevGE_trans (identify_chronic_hotspots df)
    exact hp.imp (fun hab => of_decide_eq_true hab)
  · show round1R ((5:ℕ) * (1 + Real.log (max (((30:ℤ):ℝ) / 30) 1))) = 5
    have h1 : (((30:ℤ):ℝ) / 30) = 1 := by norm_num
    rw [h1, max_self, Real.log_one, add_zero, mul_one]
    unfold round1R roundHalfEvenR
    rw [show ((5:ℕ):ℝ) * 10 = ((50:ℤ):ℝ) by norm_num]
    rw [Int.fract_intCast, Int.floor_intCast]
    norm_num

/-! ### Gap analysis (claim C5) -/

theorem gapGE_total : ∀ a b : GapRecord, gapGE a b = true ∨ gapGE b a = true := by
  intro a b
  unfold gapGE
  rcases le_total a.gap_score b.gap_score with h | h
  · right
    exact decide_eq_true h
  · left
    exact decide_eq_true h

theorem gapGE_trans : ∀ a b c : GapRecord, gapGE a b = true → gapGE b c = true →
    gapGE a c = true := by
  intro a b c hab hbc
  unfold gapGE at *
  exact decide_eq_true (le_trans (of_decide_eq_true hbc) (of_decide_eq_true hab))

theorem gapRow_eq_some {avg : ℚ} {posts : List RedditPost} {p : List Char × Nat}
    {g : GapRecord} (h : gapRow avg posts p = some g) :
    g.neighborhood = p.1 ∧ g.reddit_signal = reddit_signal posts p.1 ∧
      g.official_reports = p.2 ∧
      g.gap_score =
        roundToQ 2 ((reddit_signal posts p.1 : ℚ) / ((max p.2 1 : ℕ) : ℚ)) ∧
      2 ≤ reddit_signal posts p.1 ∧ ((p.2 : ℚ) < avg * (1 / 2)) := by
  unfold gapRow at h
  split at h
  · simp at h
  · rename_i h0
    split at h
    · simp at h
    · rename_i h1
      split at h
      · rename_i h2
        have hg := Option.some_inj.mp h
        subst hg
        exact ⟨rfl, rfl, rfl, rfl, by omega, h2⟩
      · simp at h

theorem gapRow_some_of {avg : ℚ} {posts : List RedditPost} (p : List Char × Nat)
    (h2 : 2 ≤ reddit_signal posts p.1) (hlt : (p.2 : ℚ) < avg * (1 / 2)) :
    ∃ g, gapRow avg posts p = some g ∧ g.neighborhood = p.1 := by
  unfold gapRow
  rw [if_neg (by omega), if_neg (by omega), if_pos hlt]
  exact ⟨_, rfl, rfl⟩

theorem mem_gap_analysis {df : Option Frame311} {posts : List RedditPost}
    {g : GapRecord} (hne : posts ≠ []) :
    g ∈ gap_analysis df (some posts) ↔
      ∃ p ∈ report_counts df,
        gapRow (meanCounts (report_counts df)) posts p = some g := by
  unfold gap_analysis
  dsimp only
  rw [if_neg (by simpa using hne)]
  rw [mem_sortBy, List.mem_filterMap]

theorem mem_valueCounts {l : List (List Char)} {p : List Char × Nat} :
    p ∈ valueCounts l ↔ p.1 ∈ l ∧ p.2 = countOcc l p.1 := by
  obtain ⟨a, c⟩ := p
  unfold valueCounts
  rw [List.mem_map]
  dsimp only
  constructor
  · rintro ⟨x, hx, hxe⟩
    obtain ⟨rfl, rfl⟩ := Prod.mk.injEq .. |>.mp hxe
    exact ⟨mem_firstDedup.mp hx, rfl⟩
  · rintro ⟨h1, h2⟩
    exact ⟨a, mem_firstDedup.mpr h1, by rw [h2]⟩

theorem report_counts_of_col {f : Frame311} (hcol : f.hasNeighborhoodCol = true) :
    report_counts (some f) = valueCounts (neighborhoodsOf f) := by
  unfold report_counts
  simp [hcol]

/-- **C5 (amended).**  A known neighborhood yields a GapRecord iff its
weak-signal count is at least 2 and its official count is below half the
mean official count; each record's `gap_score` is the weak/official ratio
rounded to two decimals (not the exact ratio); and the list is ordered by
descending stored score. -/
theorem C5_gap_criteria :
    (∀ (f : Frame311) (posts : List RedditPost) (n : List Char),
      f.hasNeighborhoodCol = true → posts ≠ [] → n ∈ neighborhoodsOf f →
      ((∃ g ∈ gap_analysis (some f) (some posts), g.neighborhood = n) ↔
        (2 ≤ reddit_signal posts n ∧
          ((countOcc (neighborhoodsOf f) n : ℚ) <
            meanCounts (report_counts (some f)) * (1 / 2))))) ∧
    (∀ (df : Option Frame311) (posts : List RedditPost) (g : GapRecord),
      g ∈ gap_analysis df (some posts) →
      g.gap_score =
        roundToQ 2 ((g.reddit_signal : ℚ) / ((max g.official_reports 1 : ℕ) : ℚ))) ∧
    (∀ (df : Option Frame311) (posts? : Option (List RedditPost)),
      (gap_analysis df posts?).Pairwise (fun a b => b.gap_score ≤ a.gap_score)) := by
  refine ⟨?_, ?_, ?_⟩
  · intro f posts n hcol hne hn
    have hrc := report_counts_of_col hcol
    constructor
    · rintro ⟨g, hg, rfl⟩
      obtain ⟨p, hp, hrow⟩ := (mem_gap_analysis hne).mp hg
      obtain ⟨hn1, _, _, _, h2, hlt⟩ := gapRow_eq_some hrow
      rw [hrc] at hp
      have hcnt := (mem_valueCounts.mp hp).2
      rw [hn1]
      exact ⟨h2, by rw [← hcnt]; exact hlt⟩
    · rintro ⟨h2, hlt⟩
      obtain ⟨g, hrow, hgn⟩ := @gapRow_some_of (meanCounts (report_counts (some f)))
        posts (n, countOcc (neighborhoodsOf f) n) h2 hlt
      refine ⟨g, (mem_gap_analysis hne).mpr
        ⟨(n, countOcc (neighborhoodsOf f) n), ?_, hrow⟩, hgn⟩
      rw [hrc]
      exact mem_valueCounts.mpr ⟨hn, rfl⟩
  · intro df posts g hg
    by_cases hne : posts = []
    · subst hne
      simp [gap_analysis] at hg
    · obtain ⟨p, _, hrow⟩ := (mem_gap_analysis hne).mp hg
      obtain ⟨_, hn2, hn3, hscore, _, _⟩ := gapRow_eq_some hrow
      rw [hscore, hn2, hn3]
  · intro df posts?
    rcases posts? with _ | posts
    · simp [gap_analysis]
    · unfold gap_analysis
      dsimp only
      split
      · simp
      · have hp := pairwise_sortBy gapGE_total gapGE_trans
          ((report_counts df).filterMap (gapRow (meanCounts (report_counts df)) posts))
        exact hp.imp (fun hab => of_decide_eq_true hab)

/-- A closed instance of C5's membership criterion on the 13-report frame. -/
theorem C5_witness :
    ((∃ g ∈ gap_analysis (some exC5frame) (some exC5posts),
        g.neighborhood = nbCanton) ↔
      (2 ≤ reddit_signal exC5posts nbCanton ∧
        ((countOcc (neighborhoodsOf exC5frame) nbCanton : ℚ) <
          meanCounts (report_counts (some exC5frame)) * (1 / 2)))) :=
  C5_gap_criteria.1 exC5frame exC5posts nbCanton rfl (by decide) (by decide)

/-- **C5 (counterexample).**  On the 13-report frame the flagged
neighborhood has 2 weak signals and 3 official reports: its stored
`gap_score` is `round(2/3, 2) = 0.67`, which differs from the exact ratio
`2/3` the claim states. -/
theorem C5_counterexample :
    ∃ g ∈ gap_analysis (some exC5frame) (some exC5posts),
      g.gap_score ≠ (g.reddit_signal : ℚ) / ((max g.official_reports 1 : ℕ) : ℚ) := by
  have hrc : report_counts (some exC5frame) = [(nbEdmondson, 10), (nbCanton, 3)] := by
    decide
  have havg : meanCounts (report_counts (some exC5frame)) = 13 / 2 := by
    rw [hrc]
    unfold meanCounts
    norm_num
  have hsig : reddit_signal exC5posts nbCanton = 2 := by decide
  obtain ⟨g, hrow, hgn⟩ := @gapRow_some_of (meanCounts (report_counts (some exC5frame)))
    exC5posts (nbCanton, 3) (le_of_eq hsig.symm) (by rw [havg]; norm_num)
  have hmem : g ∈ gap_analysis (some exC5frame) (some exC5posts) :=
    (mem_gap_analysis (by decide)).mpr ⟨(nbCanton, 3), by rw [hrc]; decide, hrow⟩
  refine ⟨g, hmem, ?_⟩
  obtain ⟨_, hn2, hn3, hscore, _, _⟩ := gapRow_eq_some hrow
  rw [hscore, hn2, hn3]
  show roundToQ 2 (((2:ℕ):ℚ) / (((3:ℕ)):ℚ)) ≠ ((2:ℕ):ℚ) / (((3:ℕ)):ℚ)
  norm_num [roundToQ, roundHalfEvenQ, Int.fract]

/-! ### The spatial clusterer (claim C4) -/

theorem haversineRad_symm (p q : ℚ × ℚ) : haversineRad p q = haversineRad q p := by
  unfold haversineRad
  have hs : ∀ a b : ℝ, Real.sin ((a - b) / 2) ^ 2 = Real.sin ((b - a) / 2) ^ 2 := by
    intro a b
    rw [show (a - b) / 2 = -((b - a) / 2) by ring, Real.sin_neg]
    ring
  rw [hs (degToRad q.1) (degToRad p.1), hs (degToRad q.2) (degToRad p.2),
    mul_comm (Real.cos (degToRad p.1)) (Real.cos (degToRad q.1))]

theorem haversineRad_self (p : ℚ × ℚ) : haversineRad p p = 0 := by
  unfold haversineRad
  simp

theorem EPS_RAD_nonneg : 0 ≤ EPS_RAD := by
  unfold EPS_RAD
  positivity

theorem nearPt_refl (p : ℚ × ℚ) : nearPt p p := by
  unfold nearPt
  rw [haversineRad_self]
  exact EPS_RAD_nonneg

theorem nearPt_symm {p q : ℚ × ℚ} (h : nearPt p q) : nearPt q p := by
  unfold nearPt at *
  rwa [haversineRad_symm]

theorem linkStep_symm (l : List (ℚ × ℚ)) : Symmetric (linkStep l) := by
  rintro a b ⟨ha, hb, hn⟩
  exact ⟨hb, ha, nearPt_symm hn⟩

/-- Walking an `eps`-chain from a clustered point keeps every visited point
in the frame with a companion of its own. -/
theorem companion_of_chain {l : List (ℚ × ℚ)} {x y : ℚ × ℚ}
    (hch : Relation.ReflTransGen (linkStep l) x y)
    (hx : x ∈ l) (hcx : hasCompanion l x) : y ∈ l ∧ hasCompanion l y := by
  induction hch with
  | refl => exact ⟨hx, hcx⟩
  | @tail b z hxb hbz ih =>
    obtain ⟨hb, hcb⟩ := ih
    obtain ⟨_, hzl, hnear⟩ := hbz
    refine ⟨hzl, ?_⟩
    by_cases hbz' : b = z
    · subst hbz'
      exact hcb
    · exact ⟨b, (@List.mem_erase_of_ne (ℚ × ℚ) instBEqOfDecidableEq
        (@instLawfulBEq (ℚ × ℚ) _) _ _ _ hbz').mpr hb, nearPt_symm hnear⟩

theorem sameCluster_of_perm {l l' : List (ℚ × ℚ)} (hperm : l.Perm l')
    {p q : ℚ × ℚ} (h : sameCluster l p q) : sameCluster l' p q := by
  obtain ⟨hp, ⟨c, hc, hnear⟩, hch⟩ := h
  refine ⟨hperm.mem_iff.mp hp, ⟨c, (hperm.erase p).mem_iff.mp hc, hnear⟩, ?_⟩
  refine Relation.ReflTransGen.mono ?_ hch
  rintro a b ⟨ha, hb, hn⟩
  exact ⟨hperm.mem_iff.mp ha, hperm.mem_iff.mp hb, hn⟩

theorem unclusteredPt_of_perm {l l' : List (ℚ × ℚ)} (hperm : l.Perm l')
    {p : ℚ × ℚ} (h : unclusteredPt l p) : unclusteredPt l' p := by
  obtain ⟨hp, hnc⟩ := h
  refine ⟨hperm.mem_iff.mp hp, ?_⟩
  rintro ⟨c, hc, hnear⟩
  exact hnc ⟨c, (hperm.erase p).mem_iff.mpr hc, hnear⟩

/-- **C4.**  Cluster membership is the partition into connected components
of the `eps`-link graph (haversine distance at most ~75 meters): on linked
frames `sameCluster` is symmetric and transitive, a member is in a cluster
with itself iff it has a companion within `eps` (components of at least 2
members), a member is unclustered iff it has no such companion, and both
relations are invariant under any permutation of the input rows. -/
theorem C4_clustering_partition (l l' : List (ℚ × ℚ)) (hperm : l.Perm l') :
    (∀ p q, (sameCluster l p q ↔ sameCluster l' p q) ∧
      (unclusteredPt l p ↔ unclusteredPt l' p)) ∧
    (∀ p, p ∈ l →
      (unclusteredPt l p ↔ ¬ ∃ q ∈ @List.erase (ℚ × ℚ) instBEqOfDecidableEq l p,
        nearPt p q)) ∧
    (∀ p, p ∈ l → hasCompanion l p → sameCluster l p p) ∧
    (∀ p q, sameCluster l p q → sameCluster l q p) ∧
    (∀ p q r, sameCluster l p q → sameCluster l q r → sameCluster l p r) := by
  refine ⟨?_, ?_, ?_, ?_, ?_⟩
  · intro p q
    exact ⟨⟨sameCluster_of_perm hperm, sameCluster_of_perm hperm.symm⟩,
      ⟨unclusteredPt_of_perm hperm, unclusteredPt_of_perm hperm.symm⟩⟩
  · intro p hp
    exact ⟨fun h => h.2, fun h => ⟨hp, h⟩⟩
  · intro p hp hc
    exact ⟨hp, hc, Relation.ReflTransGen.refl⟩
  · intro p q h
    obtain ⟨hq, hcq⟩ := companion_of_chain h.2.2 h.1 h.2.1
    exact ⟨hq, hcq, (Relation.ReflTransGen.symmetric (linkStep_symm l)) h.2.2⟩
  · intro p q r h1 h2
    exact ⟨h1.1, h1.2.1, h1.2.2.trans h2.2.2⟩

/-- A closed instance of C4 on a 3-row frame (a duplicated coordinate and a
far-away point) and a permutation of it. -/
theorem C4_witness :
    (∀ p q, (sameCluster exC4 p q ↔ sameCluster exC4perm p q) ∧
      (unclusteredPt exC4 p ↔ unclusteredPt exC4perm p)) ∧
    (∀ p, p ∈ exC4 →
      (unclusteredPt exC4 p ↔ ¬ ∃ q ∈ @List.erase (ℚ × ℚ) instBEqOfDecidableEq exC4 p,
        nearPt p q)) ∧
    (∀ p, p ∈ exC4 → hasCompanion exC4 p → sameCluster exC4 p p) ∧
    (∀ p q, sameCluster exC4 p q → sameCluster exC4 q p) ∧
    (∀ p q r, sameCluster exC4 p q → sameCluster exC4 q r → sameCluster exC4 p r) :=
  C4_clustering_partition exC4 exC4perm (by decide)

end Balt311
